import Mathlib

/-!
Verification of the WeatherWave server (src/WeatherWave/server.py).

The program is a single HTTP request handler on top of a generic static file
server: a GET whose parsed path is `/config.js` is answered with a generated
JavaScript statement that interpolates the `RAPIDAPI_KEY` environment value (or
a fallback placeholder), and every other request falls through to the
collaborator. The development below embeds the handler shallowly: the process
environment is an `Option String` (the value of `RAPIDAPI_KEY`, `none` when
unset), the served directory is a map from parsed paths to file bytes, and
`urllib.parse.urlparse` is translated on character lists.
-/

namespace WeatherWave

/-- HTTP response: status code, headers as (name, value) pairs, body bytes. -/
structure Response where
  status : Nat
  headers : List (String × String)
  body : List Nat
  deriving DecidableEq

/-- Characters CPython removes from a URL before parsing it
    (`_UNSAFE_URL_BYTES_TO_REMOVE`: tab, carriage return, line feed). -/
def urlSafeChar (c : Char) : Bool :=
  !(c == '\t' || c == '\r' || c == '\n')

/-- Split a character list at the first occurrence of `c`: `some (before, after)`
    when `c` occurs, `none` otherwise (CPython `str.find` plus slicing). -/
def splitFirst (c : Char) : List Char → Option (List Char × List Char)
  | [] => none
  | x :: xs =>
    if x = c then some ([], xs)
    else (splitFirst c xs).map (fun p => (x :: p.1, p.2))

/-- Characters allowed in a URL scheme name: ASCII letters and digits and
    `+`, `-`, `.` (CPython `scheme_chars`). -/
def schemeChar (c : Char) : Bool :=
  c.isAlpha || c.isDigit || c == '+' || c == '-' || c == '.'

/-- Whether the text standing before the first colon is a valid scheme name:
    nonempty, first character an ASCII letter, every character a scheme
    character. -/
def isSchemeName : List Char → Bool
  | [] => false
  | c :: cs => c.isAlpha && (c :: cs).all schemeChar

/-- Scheme split of CPython `urlsplit`: when a valid scheme name stands before
    the first colon, return the lower-cased scheme and the rest, else no
    scheme. -/
def splitScheme (l : List Char) : List Char × List Char :=
  match splitFirst ':' l with
  | none => ([], l)
  | some p => if isSchemeName p.1 then (p.1.map Char.toLower, p.2) else ([], l)

/-- Network-location part up to the first `/`, `?` or `#`, and the rest
    (CPython `_splitnetloc`, the delimiter kept in the rest). -/
def netlocEnd : List Char → List Char × List Char
  | [] => ([], [])
  | x :: xs =>
    if x = '/' || x = '?' || x = '#' then ([], x :: xs)
    else
      let p := netlocEnd xs
      (x :: p.1, p.2)

/-- Netloc split of CPython `urlsplit`: only a remainder starting with `//`
    carries a netloc. -/
def splitNetloc (l : List Char) : List Char × List Char :=
  match l with
  | a :: b :: rest => if a = '/' ∧ b = '/' then netlocEnd rest else ([], l)
  | _ => ([], l)

/-- Split at the first occurrence of `c`, keeping the whole list when `c` is
    absent (the `url.split(c, 1)` steps of `urlsplit`, guarded by `c in url`). -/
def splitOn1 (c : Char) (l : List Char) : List Char × List Char :=
  match splitFirst c l with
  | none => (l, [])
  | some p => p

/-- Split a list at its last `/`: `some (before, from-the-slash)` when a slash
    occurs, the slash beginning the second component (CPython `str.rfind`). -/
def lastSlash : List Char → Option (List Char × List Char)
  | [] => none
  | x :: xs =>
    match lastSlash xs with
    | some p => some (x :: p.1, p.2)
    | none => if x = '/' then some ([], x :: xs) else none

/-- Parameter split of CPython `urlparse` (`_splitparams`): the params of the
    last path segment, after that segment's first `;`. -/
def splitParams (l : List Char) : List Char × List Char :=
  match lastSlash l with
  | some p =>
    match splitFirst ';' p.2 with
    | none => (l, [])
    | some q => (p.1 ++ q.1, q.2)
  | none =>
    match splitFirst ';' l with
    | none => (l, [])
    | some q => (q.1, q.2)

/-- Result of `urllib.parse.urlparse`. -/
structure ParseResult where
  scheme : String
  netloc : String
  path : String
  params : String
  query : String
  fragment : String
  deriving DecidableEq

/-- CPython `urlsplit` followed by the params split of `urlparse`, on a
    character list already cleared of unsafe bytes. -/
def urlparseCore (l : List Char) : ParseResult :=
  let s := splitScheme l
  let nl := splitNetloc s.2
  let fr := splitOn1 '#' nl.2
  let qu := splitOn1 '?' fr.1
  let pp := splitParams qu.1
  ⟨⟨s.1⟩, ⟨nl.1⟩, ⟨pp.1⟩, ⟨pp.2⟩, ⟨qu.2⟩, ⟨fr.2⟩⟩

/-- Translation of `urllib.parse.urlparse` as the handler uses it: remove the
    unsafe bytes, then split off scheme, netloc, fragment, query and params. -/
def urlparse (url : String) : ParseResult :=
  urlparseCore (url.data.filter urlSafeChar)

/-- UTF-8 encoding of one Unicode code point (the code points of a Python `str`
    are scalar values, so the four ranges below cover them all). -/
def utf8Char (c : Nat) : List Nat :=
  if c < 128 then [c]
  else if c < 2048 then [192 + c / 64, 128 + c % 64]
  else if c < 65536 then [224 + c / 4096, 128 + c / 64 % 64, 128 + c % 64]
  else [240 + c / 262144, 128 + c / 4096 % 64, 128 + c / 64 % 64, 128 + c % 64]

/-- Python `str.encode('utf-8')`: the concatenated UTF-8 encodings of the
    string's code points, as a byte list. -/
def utf8Encode (s : String) : List Nat :=
  s.data.flatMap (fun c => utf8Char c.toNat)

/-- Modelled from the spec: the generic static-file-serving collaborator
    (`http.server.SimpleHTTPRequestHandler`, standard library, not part of this
    repository). `files` maps a parsed request path to the bytes of an existing
    file under the served directory; a hit is served with status 200 and the
    file's exact bytes, a miss gets the standard 404 not-found response. -/
def serveStatic (files : String → Option (List Nat)) (path : String) : Response :=
  match files (urlparse path).path with
  | some bytes => { status := 200, headers := [], body := bytes }
  | none => { status := 404, headers := [], body := [] }

/-- Fallback placeholder used when `RAPIDAPI_KEY` is unset
    (`os.environ.get('RAPIDAPI_KEY', 'YOUR_RAPIDAPI_KEY_HERE')`). -/
def fallbackKey : String := "YOUR_RAPIDAPI_KEY_HERE"

/-- Body of the generated config script: the f-string
    `f"window.RAPIDAPI_KEY = '{api_key}';"` where `api_key` is the value of
    `RAPIDAPI_KEY`, or the fallback placeholder when the variable is unset. -/
def config_content (env : Option String) : String :=
  "window.RAPIDAPI_KEY = '" ++ env.getD fallbackKey ++ "';"

/-- Translation of `WeatherHandler.do_GET` (src/WeatherWave/server.py, lines
    13-31): parse the request path; on `/config.js` answer 200 with the
    JavaScript content type, `Cache-Control: no-cache` and the UTF-8 encoding
    of the config script; on any other parsed path fall through to the
    static-file collaborator (`super().do_GET()`). -/
def do_GET (env : Option String) (files : String → Option (List Nat))
    (path : String) : Response :=
  if (urlparse path).path = "/config.js" then
    { status := 200
      headers := [("Content-type", "application/javascript"),
                  ("Cache-Control", "no-cache")]
      body := utf8Encode (config_content env) }
  else serveStatic files path

/-- Method dispatch of the handler class: `WeatherHandler` overrides only
    `do_GET`, so every other method is handled by `collab`, the inherited
    default behavior of the static-file-serving collaborator. `collab` itself
    stands for standard-library code that is not part of this repository. -/
def handleRequest (env : Option String) (files : String → Option (List Nat))
    (collab : String → String → Response) (method path : String) : Response :=
  if method = "GET" then do_GET env files path else collab method path

/-- Observable server-process state: the process environment (the value of
    `RAPIDAPI_KEY`), the served directory, and the log of responses written to
    clients so far. -/
structure ServerState where
  env : Option String
  files : String → Option (List Nat)
  sent : List Response

/-- Stateful form of `do_GET`: handling a request appends the written response
    to the log and touches nothing else — the environment read
    (`os.environ.get`) and the file reads are the only state accesses in the
    handler's body, and both are read-only. -/
def do_GET_state (s : ServerState) (path : String) : ServerState :=
  { env := s.env, files := s.files
    sent := s.sent ++ [do_GET s.env s.files path] }

/-- Port of `main` (src/WeatherWave/server.py, line 34). -/
def PORT : Nat := 5000

/-- Address `("", PORT)` that `main` passes to `socketserver.TCPServer`:
    every interface, TCP port 5000. -/
def serverAddress : String × Nat := ("", PORT)

/-- Modelled from the spec: `httpd.serve_forever()` — the server loop answers
    every request of the incoming stream with the `WeatherHandler` dispatch and
    has no stopping condition of its own (the process runs until externally
    terminated). -/
def serve_forever (env : Option String) (files : String → Option (List Nat))
    (collab : String → String → Response) (reqs : List (String × String)) :
    List Response :=
  reqs.map (fun r => handleRequest env files collab r.1 r.2)

/-- Example served directory holding a single file `/index.html`. -/
def exampleFiles : String → Option (List Nat) :=
  fun p => if p = "/index.html" then some [104, 105] else none

/-- Modelled from the spec: the collaborator's default answer for an
    unsupported method (not implemented). -/
def notImplemented : Response := { status := 501, headers := [], body := [] }

/-- Parsed path of the literal request path `/config.js`. -/
theorem urlparse_config : (urlparse "/config.js").path = "/config.js" := by decide

/-- C1: for every value of the environment variable `RAPIDAPI_KEY` (including
    unset), GET `/config.js` answers status 200 with body exactly the UTF-8
    bytes of `window.RAPIDAPI_KEY = '<value>';`, `<value>` being the
    environment value when set and `YOUR_RAPIDAPI_KEY_HERE` when unset. -/
theorem configJs_status_and_body (env : Option String)
    (files : String → Option (List Nat)) :
    (do_GET env files "/config.js").status = 200 ∧
    (do_GET env files "/config.js").body =
      utf8Encode ("window.RAPIDAPI_KEY = '" ++
        env.getD "YOUR_RAPIDAPI_KEY_HERE" ++ "';") := by
  constructor <;> simp [do_GET, urlparse_config, config_content, fallbackKey]

/-- C3: the key is interpolated verbatim with no escaping: for every key value
    the characters of the generated statement are the literal head, then the
    key's characters unchanged between the single quotes, then `';` — even for
    a key holding a single quote or a backslash, as the concrete instance
    shows. -/
theorem key_not_escaped (key : String) :
    (config_content (some key)).data =
      ("window.RAPIDAPI_KEY = '").data ++ key.data ++ ("';").data ∧
    config_content (some "a'\\b") = "window.RAPIDAPI_KEY = 'a'\\b';" := by
  constructor
  · simp [config_content, String.data_append]
  · decide

/-- C4: every `/config.js` response carries a content-type header identifying
    the body as JavaScript (name case-insensitively `content-type`, value
    `application/javascript`) and a `Cache-Control: no-cache` header. -/
theorem configJs_headers (env : Option String)
    (files : String → Option (List Nat)) :
    (∃ hd ∈ (do_GET env files "/config.js").headers,
      hd.1.data.map Char.toLower = ("content-type").data ∧
      hd.2 = "application/javascript") ∧
    ("Cache-Control", "no-cache") ∈ (do_GET env files "/config.js").headers := by
  constructor
  · refine ⟨("Content-type", "application/javascript"), ?_, by decide, rfl⟩
    simp [do_GET, urlparse_config]
  · simp [do_GET, urlparse_config]

/-- C7: handling GET `/config.js` has no side effect beyond writing the
    response: the environment and the served files are untouched, and the only
    change to the server state is the one appended response. -/
theorem configJs_no_side_effects (s : ServerState) :
    (do_GET_state s "/config.js").env = s.env ∧
    (do_GET_state s "/config.js").files = s.files ∧
    (do_GET_state s "/config.js").sent =
      s.sent ++ [do_GET s.env s.files "/config.js"] :=
  ⟨rfl, rfl, rfl⟩

/-- Splitting a concatenation whose head part avoids `c` skips that part. -/
theorem splitFirst_append_of_not_mem (c : Char) (l₁ l₂ : List Char) (h : c ∉ l₁) :
    splitFirst c (l₁ ++ l₂) =
      (splitFirst c l₂).map (fun p => (l₁ ++ p.1, p.2)) := by
  induction l₁ with
  | nil => cases hs : splitFirst c l₂ <;> simp [hs]
  | cons x xs ih =>
    have hxc : ¬(x = c) := fun hx => h (by rw [hx]; exact List.mem_cons_self c xs)
    have hx : c ∉ xs := fun hm => h (List.mem_cons_of_mem x hm)
    simp only [List.cons_append, splitFirst, if_neg hxc, List.append_eq]
    rw [ih hx, Option.map_map]
    cases splitFirst c l₂ <;> rfl

/-- Guarded split of a concatenation whose head part avoids `c`. -/
theorem splitOn1_append_of_not_mem (c : Char) (l₁ l₂ : List Char) (h : c ∉ l₁) :
    splitOn1 c (l₁ ++ l₂) = (l₁ ++ (splitOn1 c l₂).1, (splitOn1 c l₂).2) := by
  unfold splitOn1
  rw [splitFirst_append_of_not_mem c l₁ l₂ h]
  cases splitFirst c l₂ <;> simp

/-- Guarded split at an explicit first occurrence of `c`. -/
theorem splitOn1_append_find (c : Char) (l₁ l₂ : List Char) (h : c ∉ l₁) :
    splitOn1 c (l₁ ++ c :: l₂) = (l₁, l₂) := by
  unfold splitOn1
  rw [splitFirst_append_of_not_mem c l₁ _ h]
  simp [splitFirst]

/-- A list starting with `/` is never a scheme name. -/
theorem isSchemeName_slash (a : List Char) : isSchemeName ('/' :: a) = false := by
  have h : Char.isAlpha '/' = false := by decide
  simp [isSchemeName, h]

/-- A URL starting with `/` carries no scheme. -/
theorem splitScheme_slash (xs : List Char) :
    splitScheme ('/' :: xs) = ([], '/' :: xs) := by
  unfold splitScheme
  simp only [splitFirst, if_neg (by decide : ¬('/' = ':'))]
  cases splitFirst ':' xs with
  | none => rfl
  | some p => simp [isSchemeName_slash]

/-- A URL not starting with `//` carries no netloc. -/
theorem splitNetloc_no_netloc (a b : Char) (xs : List Char)
    (h : ¬(a = '/' ∧ b = '/')) :
    splitNetloc (a :: b :: xs) = ([], a :: b :: xs) := by
  simp [splitNetloc, h]

/-- Parsed path of `/config.js?<anything>` on cleaned characters: the query
    split leaves exactly `/config.js`. -/
theorem urlparseCore_config_query (q : List Char) :
    (urlparseCore (("/config.js?").data ++ q)).path = "/config.js" := by
  have hdata : ("/config.js?").data = '/' :: 'c' :: ("onfig.js?").data := by decide
  have h2 : splitScheme (("/config.js?").data ++ q) =
      ([], ("/config.js?").data ++ q) := by
    rw [hdata]; exact splitScheme_slash _
  have h3 : splitNetloc (("/config.js?").data ++ q) =
      ([], ("/config.js?").data ++ q) := by
    rw [hdata]
    exact splitNetloc_no_netloc '/' 'c' _ (by decide)
  have h4 : splitOn1 '#' (("/config.js?").data ++ q) =
      (("/config.js?").data ++ (splitOn1 '#' q).1, (splitOn1 '#' q).2) :=
    splitOn1_append_of_not_mem '#' _ q (by decide)
  have h5 : splitOn1 '?' (("/config.js?").data ++ (splitOn1 '#' q).1) =
      (("/config.js").data, (splitOn1 '#' q).1) := by
    have he : ("/config.js?").data ++ (splitOn1 '#' q).1 =
        ("/config.js").data ++ '?' :: (splitOn1 '#' q).1 := by
      have hq : ("/config.js?").data = ("/config.js").data ++ ['?'] := by decide
      rw [hq, List.append_assoc]; rfl
    rw [he]
    exact splitOn1_append_find '?' _ _ (by decide)
  have h6 : splitParams (("/config.js").data) = (("/config.js").data, []) := by
    decide
  simp only [urlparseCore, h2, h3, h4, h5, h6]

/-- Parsed path of a request `/config.js?q` for an arbitrary query string. -/
theorem urlparse_config_query (q : String) :
    (urlparse ("/config.js?" ++ q)).path = "/config.js" := by
  have hfix : ("/config.js?").data.filter urlSafeChar = ("/config.js?").data := by
    decide
  have h : ("/config.js?" ++ q).data.filter urlSafeChar =
      ("/config.js?").data ++ q.data.filter urlSafeChar := by
    rw [String.data_append, List.filter_append, hfix]
  unfold urlparse
  rw [h]
  exact urlparseCore_config_query _

/-- C2: a GET whose parsed path is not `/config.js` is delegated entirely to
    the static-file collaborator: an existing file is served with status 200
    and its exact bytes, and a path resolving to no file gets 404. -/
theorem nonConfig_delegates (env : Option String)
    (files : String → Option (List Nat)) (p : String)
    (h : (urlparse p).path ≠ "/config.js") :
    do_GET env files p = serveStatic files p ∧
    (∀ bytes, files (urlparse p).path = some bytes →
      (do_GET env files p).status = 200 ∧ (do_GET env files p).body = bytes) ∧
    (files (urlparse p).path = none → (do_GET env files p).status = 404) := by
  have hd : do_GET env files p = serveStatic files p := by
    unfold do_GET; rw [if_neg h]
  refine ⟨hd, ?_, ?_⟩
  · intro bytes hb
    rw [hd]; unfold serveStatic; rw [hb]; exact ⟨rfl, rfl⟩
  · intro hn
    rw [hd]; unfold serveStatic; rw [hn]

/-- Witness for C2 at the concrete paths `/index.html` (present in the served
    directory) and `/missing.html` (absent). -/
theorem nonConfig_delegates_witness :
    ((urlparse "/index.html").path ≠ "/config.js" ∧
      do_GET none exampleFiles "/index.html" =
        serveStatic exampleFiles "/index.html" ∧
      (do_GET none exampleFiles "/index.html").status = 200 ∧
      (do_GET none exampleFiles "/index.html").body = [104, 105]) ∧
    ((urlparse "/missing.html").path ≠ "/config.js" ∧
      (do_GET none exampleFiles "/missing.html").status = 404) := by
  have h1 := nonConfig_delegates none exampleFiles "/index.html" (by decide)
  have h2 := nonConfig_delegates none exampleFiles "/missing.html" (by decide)
  exact ⟨⟨by decide, h1.1, (h1.2.1 [104, 105] (by decide)).1,
    (h1.2.1 [104, 105] (by decide)).2⟩, ⟨by decide, h2.2.2 (by decide)⟩⟩

/-- C5: the key is read from the environment at request time: the `/config.js`
    response is a function of the current environment value alone (the served
    files are irrelevant), so two handlings observing the same environment
    value produce identical responses, and the body always reflects the
    environment value the request observes. -/
theorem configJs_env_deterministic (env₁ env₂ : Option String)
    (files₁ files₂ : String → Option (List Nat)) (p : String)
    (hp : (urlparse p).path = "/config.js") (he : env₁ = env₂) :
    do_GET env₁ files₁ p = do_GET env₂ files₂ p ∧
    (do_GET env₁ files₁ p).body = utf8Encode (config_content env₁) := by
  subst he
  constructor <;> simp [do_GET, hp]

/-- Witness for C5 at `/config.js` with the key `abc123` under two different
    served directories. -/
theorem configJs_env_deterministic_witness :
    (urlparse "/config.js").path = "/config.js" ∧
    do_GET (some "abc123") exampleFiles "/config.js" =
      do_GET (some "abc123") (fun _ => none) "/config.js" ∧
    (do_GET (some "abc123") exampleFiles "/config.js").body =
      utf8Encode (config_content (some "abc123")) := by
  have h := configJs_env_deterministic (some "abc123") (some "abc123")
    exampleFiles (fun _ => none) "/config.js" (by decide) rfl
  exact ⟨by decide, h.1, h.2⟩

/-- C6: only GET is special-cased: a non-GET request, one to `/config.js`
    included, is handled by the collaborator's default behavior, independently
    of the environment, and no config script is generated. -/
theorem nonGet_uses_default (env env₂ : Option String)
    (files : String → Option (List Nat)) (collab : String → String → Response)
    (method p : String) (h : method ≠ "GET") :
    handleRequest env files collab method p = collab method p ∧
    handleRequest env files collab method p =
      handleRequest env₂ files collab method p := by
  constructor <;> simp [handleRequest, h]

/-- Witness for C6 at a POST to `/config.js`. -/
theorem nonGet_uses_default_witness :
    ("POST" : String) ≠ "GET" ∧
    handleRequest none exampleFiles (fun _ _ => notImplemented)
      "POST" "/config.js" = notImplemented := by
  have h := nonGet_uses_default none (some "k") exampleFiles
    (fun _ _ => notImplemented) "POST" "/config.js" (by decide)
  exact ⟨by decide, h.1⟩

/-- C8: `main` constructs the server on address `("", 5000)` — every
    interface, TCP port 5000 — with the `WeatherHandler` dispatch, and the
    serve loop answers each request of the incoming stream with that dispatch,
    with no stopping condition of its own. -/
theorem main_server_shape (env : Option String)
    (files : String → Option (List Nat)) (collab : String → String → Response)
    (reqs : List (String × String)) (i : Nat) :
    serverAddress = ("", 5000) ∧
    (serve_forever env files collab reqs).length = reqs.length ∧
    (serve_forever env files collab reqs)[i]? =
      (reqs[i]?).map (fun r => handleRequest env files collab r.1 r.2) := by
  refine ⟨rfl, ?_, ?_⟩ <;> simp [serve_forever]

/-- C9: the `/config.js` match is made on the parsed path component: a request
    `/config.js?q` gets the generated config response for every query string
    `q`, while the match is exact and case-sensitive, so `/config.js/` and
    `/CONFIG.JS` are delegated to static file serving. -/
theorem configJs_query_and_exact_match (q : String) (env : Option String)
    (files : String → Option (List Nat)) :
    (urlparse ("/config.js?" ++ q)).path = "/config.js" ∧
    (do_GET env files ("/config.js?" ++ q)).status = 200 ∧
    (do_GET env files ("/config.js?" ++ q)).body =
      utf8Encode (config_content env) ∧
    do_GET env files "/config.js/" = serveStatic files "/config.js/" ∧
    do_GET env files "/CONFIG.JS" = serveStatic files "/CONFIG.JS" := by
  refine ⟨urlparse_config_query q, ?_, ?_, ?_, ?_⟩
  · simp [do_GET, urlparse_config_query q]
  · simp [do_GET, urlparse_config_query q]
  · unfold do_GET
    rw [if_neg (by decide : ¬((urlparse "/config.js/").path = "/config.js"))]
  · unfold do_GET
    rw [if_neg (by decide : ¬((urlparse "/CONFIG.JS").path = "/config.js"))]

/-- Encoding a concatenation concatenates the encodings. -/
theorem utf8Encode_append (a b : String) :
    utf8Encode (a ++ b) = utf8Encode a ++ utf8Encode b := by
  simp [utf8Encode, String.data_append]

/-- C10: the `/config.js` body is exactly the UTF-8 encoding of the generated
    statement, so the UTF-8 encoding of each key character — multi-byte for a
    non-ASCII code point — appears verbatim inside the body. -/
theorem configJs_body_utf8 (files : String → Option (List Nat))
    (key : String) (c : Char) (hc : c ∈ key.data) :
    (do_GET (some key) files "/config.js").body =
      utf8Encode (config_content (some key)) ∧
    (∃ l₁ l₂, (do_GET (some key) files "/config.js").body =
      l₁ ++ utf8Char c.toNat ++ l₂) ∧
    (128 ≤ c.toNat → 2 ≤ (utf8Char c.toNat).length) := by
  have hb : (do_GET (some key) files "/config.js").body =
      utf8Encode (config_content (some key)) := by
    simp [do_GET, urlparse_config]
  refine ⟨hb, ?_, ?_⟩
  · obtain ⟨s, t, hst⟩ := List.append_of_mem hc
    refine ⟨utf8Encode "window.RAPIDAPI_KEY = '" ++
        s.flatMap (fun x => utf8Char x.toNat),
      t.flatMap (fun x => utf8Char x.toNat) ++ utf8Encode "';", ?_⟩
    rw [hb]
    simp only [config_content, Option.getD_some, utf8Encode_append]
    simp [utf8Encode, hst, List.append_assoc]
  · intro h128
    unfold utf8Char
    rw [if_neg (by omega)]
    split_ifs <;> simp

/-- Witness for C10 at the one-character key with code point 233 (`é`). -/
theorem configJs_body_utf8_witness :
    (Char.ofNat 233) ∈ (String.mk [Char.ofNat 233]).data ∧
    (do_GET (some (String.mk [Char.ofNat 233])) exampleFiles "/config.js").body =
      utf8Encode (config_content (some (String.mk [Char.ofNat 233]))) ∧
    (∃ l₁ l₂,
      (do_GET (some (String.mk [Char.ofNat 233])) exampleFiles "/config.js").body =
        l₁ ++ utf8Char (Char.ofNat 233).toNat ++ l₂) ∧
    utf8Char (Char.ofNat 233).toNat = [195, 169] := by
  have h := configJs_body_utf8 exampleFiles (String.mk [Char.ofNat 233])
    (Char.ofNat 233) (by decide)
  exact ⟨by decide, h.1, h.2.1, by decide⟩

end WeatherWave
